import Mathlib

/-!
Verification of the core of an embeddable FTP server written in Go
(package `server`: `server.go`, `client_handler.go`, and the driver
interface file).  The development shallowly embeds the data model and the
operations of the core — command-line parsing, the authentication gate of
the command loop, transfer-channel open/close, connection admission and
departure, settings defaults, session-id assignment and the polling
shutdown drain — and proves the spec's claims about them.

Modelling conventions:
* Strings are Lean `String`s; the Go standard-library functions used by the
  code (`strings.Trim` with a cutset, `strings.SplitN(s, " ", 2)`,
  `strings.TrimSpace`, `strings.ToUpper`) are embedded as executable
  functions on `List Char` / `String`.
* The session registry (`connectionsById`, a Go map from uint32 id to
  handler) is a `Finset Nat` of session ids; map insert/delete/len become
  `insert`/`erase`/`card`.  The mutex only serialises registry access, so
  the sequential embedding models the locked sections directly.
* Effects visible to the client or to the driver (response writes, handler
  dispatch, `UserLeft`, transfer-channel open/close, `conn.Close()`,
  registry removal) are reified as an `Act` trace.  Debug-stream prints are
  not modelled: they go to an internal sink, not to the client or driver.
* The bodies of the per-command handlers (`handleUSER`, `handleQUIT`, …)
  live outside the embedded files; the command loop is therefore
  parametric in an abstract handler state-update function, and a dispatch
  is recorded as an `Act.dispatch` event.
* The Go `uint32` session counter is a `Nat` reduced modulo `2 ^ 32` at
  each increment.
-/

namespace Ftp

/-! ## Go string primitives -/

/-- Go `unicode.IsSpace`: the Unicode White_Space property (the code points
of Go's `unicode.White_Space` range table). -/
def goIsSpace (c : Char) : Bool :=
  c = '\t' || c = '\n' || c.val = 11 || c.val = 12 || c = '\r' || c = ' '
    || c.val = 0x85 || c.val = 0xA0 || c.val = 0x1680
    || (0x2000 ≤ c.val && c.val ≤ 0x200A)
    || c.val = 0x2028 || c.val = 0x2029 || c.val = 0x202F || c.val = 0x205F
    || c.val = 0x3000

/-- Drop the longest prefix of characters satisfying `p`. -/
def dropLeading (p : Char → Bool) (l : List Char) : List Char :=
  l.dropWhile p

/-- Drop the longest suffix of characters satisfying `p`. -/
def dropTrailing (p : Char → Bool) (l : List Char) : List Char :=
  (l.reverse.dropWhile p).reverse

/-- Go `strings.Trim(s, cutset)`: strip characters of the cutset from both
ends of the string. -/
def goTrim (l : List Char) (cutset : List Char) : List Char :=
  dropTrailing (fun c => cutset.contains c) (dropLeading (fun c => cutset.contains c) l)

/-- Go `strings.TrimSpace(s)`: strip Unicode white space from both ends. -/
def goTrimSpace (l : List Char) : List Char :=
  dropTrailing goIsSpace (dropLeading goIsSpace l)

/-- Go `strings.SplitN(s, sep, 2)` for a one-character separator, in the
form (piece before the first separator, rest after it if any): `SplitN`
returns one piece (`none` here) when the separator does not occur, else the
prefix before its first occurrence and the remainder after it. -/
def splitFirst (sep : Char) : List Char → List Char × Option (List Char)
  | [] => ([], none)
  | c :: rest =>
    if c = sep then ([], some rest)
    else
      let r := splitFirst sep rest
      (c :: r.1, r.2)

/-- The cutset `"\r\n"` of `parseLine`. -/
def crlf : List Char := ['\r', '\n']

/-- `parseLine` (client_handler.go): split the received line, with CR/LF
characters trimmed from both ends by `strings.Trim(line, "\r\n")`, at the
first space; a line without a space yields the whole line as the verb and
an empty parameter, otherwise the remainder is `strings.TrimSpace`d. -/
def parseLine (line : String) : String × String :=
  match splitFirst ' ' (goTrim line.toList crlf) with
  | (a, none) => (String.mk a, "")
  | (a, some b) => (String.mk a, String.mk (goTrimSpace b))

/-- Transcribed from the claim's words, for comparison with `parseLine`:
the line *with its trailing line terminator stripped* (only trailing CR/LF
characters removed, nothing at the front) is split on the first space into
a verb and an argument; the argument is the remainder trimmed of
surrounding whitespace; a line with no space yields an empty argument. -/
def parseLineClaimed (line : String) : String × String :=
  match splitFirst ' ' (dropTrailing (fun c => crlf.contains c) line.toList) with
  | (a, none) => (String.mk a, "")
  | (a, some b) => (String.mk a, String.mk (goTrimSpace b))

/-- Whether a character is CR or LF. -/
def isCRLF (c : Char) : Bool := c = '\r' || c = '\n'

/-- Go `strings.ToUpper` on the alphabet the command table uses: uppercase
character by character (`Char.toUpper` maps the ASCII letters, the ones
FTP verbs are made of). -/
def goToUpper (s : String) : String :=
  String.mk (s.toList.map Char.toUpper)

/-- Transcribed from the amended claim's words: strip the leading and
trailing CR and LF characters of the line, take the verb as the longest
space-free prefix, and, when a space follows it, take the argument as the
remainder after that first space trimmed of surrounding whitespace (kept
verbatim otherwise); with no space the argument is empty.  Written with
`takeWhile`/`dropWhile` and the strip in the opposite order, to be compared
with the code's `parseLine`. -/
def parseLineAmended (line : String) : String × String :=
  let t := dropLeading isCRLF (dropTrailing isCRLF line.toList)
  match t.dropWhile (fun c => c != ' ') with
  | [] => (String.mk (t.takeWhile (fun c => c != ' ')), "")
  | _ :: arg => (String.mk (t.takeWhile (fun c => c != ' ')), String.mk (goTrimSpace arg))

/-! ## Data model -/

instance exceptDecEq {ε α : Type} [DecidableEq ε] [DecidableEq α] :
    DecidableEq (Except ε α)
  | .error a, .error b =>
    decidable_of_iff (a = b) (by simp)
  | .error _, .ok _ => Decidable.isFalse (by simp)
  | .ok _, .error _ => Decidable.isFalse (by simp)
  | .ok a, .ok b =>
    decidable_of_iff (a = b) (by simp)

/-- The abstract transfer-channel collaborator (`transferHandler` in Go):
`Open()` either yields a data stream (identified by a numeric handle) or
fails with an error message; the outcome is fixed by the collaborator. -/
structure TransferHandler where
  openResult : Except String Nat
deriving DecidableEq, Repr

/-- `clientHandler` (client_handler.go): the per-connection session state.
The server back-pointer, bufio reader/writer and connection timestamp are
not data the embedded operations compute with; reads and writes on the
connection appear in the `Act` traces instead. -/
structure ClientHandler where
  id : Nat
  user : String
  isAuthed : Bool
  path : String
  command : String
  param : String
  ctxRnfr : String
  ctxRest : Int
  transfer : Option TransferHandler
  transferTls : Bool
deriving DecidableEq, Repr

/-- `Settings` (driver file): `ListenHost`, `ListenPort`, `PublicHost`,
`MaxConnections`, with Go `int` embedded as `Int`. -/
structure Settings where
  listenHost : String
  listenPort : Int
  publicHost : String
  maxConnections : Int
deriving DecidableEq, Repr

/-- `FtpServer` (server.go): the fields the embedded operations touch —
the settings, the registry of live sessions (`connectionsById`, keyed by
session id) and the uint32 client counter.  The listener, start time,
driver and debug stream carry no state our claims depend on; the mutex
serialises registry access and is represented by the sequential embedding
of the locked sections. -/
structure FtpSrv where
  settings : Settings
  connectionsById : Finset Nat
  clientCounter : Nat
deriving DecidableEq

/-- Observable effects of the session and server operations, in program
order: a response line written to the control connection
(`writeMessage code text`), a command-table handler invocation, the
driver's `UserLeft` notification, a transfer-channel `Open()`/`Close()`,
the `conn.Close()` a `disconnect()` would perform (no operation embedded
here emits it: `disconnect` is never called in the embedded files), and
the registry deletion of `clientDeparture`. -/
inductive Act where
  | write (code : Nat) (text : String)
  | dispatch (verb : String)
  | userLeft
  | chanOpen
  | chanClose
  | closeConn
  | departure (id : Nat)
deriving DecidableEq, Repr

/-! ## Session operations (client_handler.go) -/

/-- `IsTransferClosed`: the session holds no transfer channel. -/
def isTransferClosed (c : ClientHandler) : Bool :=
  c.transfer.isNone

/-- `TransferOpen`: with a declared channel, write the intermediate `150`
response and then open the channel, returning its outcome and leaving the
session (in particular its channel reference) unchanged; with none, write
`550` and fail. -/
def transferOpen (c : ClientHandler) :
    List Act × Except String Nat × ClientHandler :=
  match c.transfer with
  | some t =>
    ([Act.write 150 "Using transfer connection", Act.chanOpen], t.openResult, c)
  | none =>
    ([Act.write 550 "No passive connection declared"],
      Except.error "No passive connection declared", c)

/-- `TransferClose`: with a channel present, write the `226` response,
close the channel and clear the reference; otherwise do nothing. -/
def transferClose (c : ClientHandler) : List Act × ClientHandler :=
  match c.transfer with
  | some _ =>
    ([Act.write 226 "Closing transfer connection", Act.chanClose],
      { c with transfer := none })
  | none => ([], c)

/-- `end`: close the transfer channel, if any, without writing (run as a
deferred cleanup when `HandleCommands` returns). -/
def endActs (c : ClientHandler) : List Act :=
  match c.transfer with
  | some _ => [Act.chanClose]
  | none => []

/-- The keys of `commandsMap` as populated once in `init()` (server.go). -/
def commandsMapKeys : List String :=
  ["USER", "PASS",
   "SIZE", "MDTM", "RETR", "STOR", "APPE", "DELE", "RNFR", "RNTO", "ALLO", "REST",
   "CWD", "PWD", "CDUP", "NLST", "LIST", "MKD", "RMD",
   "TYPE", "PASV", "EPSV", "QUIT",
   "AUTH", "PROT", "PBSZ",
   "FEAT", "SYST", "NOOP", "OPTS"]

/-- One iteration of the `HandleCommands` loop body after a successful
read: parse the line, store the upper-cased verb and the parameter on the
session, and either (unauthenticated, verb neither `USER` nor `PASS`)
write the `530` gate response, or dispatch through `commandsMap` (writing
`550` for an unknown verb).  The handler bodies live outside the embedded
files, so a dispatch records an `Act.dispatch` event and updates the
session through the abstract `f`. -/
def processLine (f : String → ClientHandler → ClientHandler)
    (c : ClientHandler) (line : String) : List Act × ClientHandler :=
  let cp := parseLine line
  let cmd := goToUpper cp.1
  let c2 := { c with command := cmd, param := cp.2 }
  if cmd ≠ "USER" ∧ cmd ≠ "PASS" ∧ ¬ c.isAuthed then
    ([Act.write 530 "Please login with USER and PASS"], c2)
  else if commandsMapKeys.contains cmd then
    ([Act.dispatch cmd], f cmd c2)
  else
    ([Act.write 550 "Not handled"], c2)

/-- The `for` loop of `HandleCommands`: process received lines one at a
time; the loop body never breaks, so the loop ends exactly when the next
read fails (stream end, read error, or the connection having been closed
by a handler such as `QUIT`), here the end of the list of lines. -/
def runLoop (f : String → ClientHandler → ClientHandler) :
    ClientHandler → List String → List Act × ClientHandler
  | c, [] => ([], c)
  | c, line :: rest =>
    let r1 := processLine f c line
    let r2 := runLoop f r1.2 rest
    (r1.1 ++ r2.1, r2.2)

/-! ## Server operations (server.go) -/

/-- `loadSettings`: take the driver's settings and replace each zero-value
listening field by its default — host `0.0.0.0`, port `2121`, max
connections `10000`. -/
def loadSettings (s : Settings) : Settings :=
  let s1 := if s.listenHost = "" then { s with listenHost := "0.0.0.0" } else s
  let s2 := if s1.listenPort = 0 then { s1 with listenPort := 2121 } else s1
  if s2.maxConnections = 0 then { s2 with maxConnections := 10000 } else s2

/-- `2 ^ 32`, the modulus of the Go `uint32` client counter. -/
def uint32Mod : Nat := 2 ^ 32

/-- The uint32 increment `server.clientCounter += 1`. -/
def nextClientCounter (counter : Nat) : Nat :=
  (counter + 1) % uint32Mod

/-- `NewClientHandler`: increment the client counter and build a fresh
session carrying the new counter value as its id, with path `/`,
unauthenticated and without a transfer channel. -/
def newClientHandler (srv : FtpSrv) : FtpSrv × ClientHandler :=
  let counter := nextClientCounter srv.clientCounter
  ({ srv with clientCounter := counter },
   { id := counter, user := "", isAuthed := false, path := "/",
     command := "", param := "", ctxRnfr := "", ctxRest := 0,
     transfer := none, transferTls := false })

/-- The server state after `k` further accepted connections. -/
def serverAfterArrivals (srv : FtpSrv) : Nat → FtpSrv
  | 0 => srv
  | k + 1 => (newClientHandler (serverAfterArrivals srv k)).1

/-- The id handed to the session accepted after `k` earlier acceptances
from state `srv` (so `sessionIdAt srv 0` is the first id assigned). -/
def sessionIdAt (srv : FtpSrv) (k : Nat) : Nat :=
  (newClientHandler (serverAfterArrivals srv k)).2.id

/-- The counter value after `k` increments. -/
def counterAfter (c0 : Nat) : Nat → Nat
  | 0 => c0
  | k + 1 => nextClientCounter (counterAfter c0 k)

/-- `clientArrival`: under the registry lock, insert the session and, when
the resulting registry size exceeds `MaxConnections`, return the admission
error (the session stays registered); otherwise return no error. -/
def clientArrival (srv : FtpSrv) (c : ClientHandler) : FtpSrv × Option String :=
  let conns := insert c.id srv.connectionsById
  let nb := conns.card
  ({ srv with connectionsById := conns },
   if (nb : Int) > srv.settings.maxConnections then
     some ("Too many clients " ++ toString nb ++ " > "
       ++ toString srv.settings.maxConnections)
   else none)

/-- `clientDeparture`: under the registry lock, delete the session. -/
def clientDeparture (srv : FtpSrv) (c : ClientHandler) : FtpSrv :=
  { srv with connectionsById := srv.connectionsById.erase c.id }

/-- `HandleCommands`: the whole life of a session, as the trace of its
acts, the final session state and the final server state.  Deferred
actions run last-registered first: `UserLeft` (registered only after a
successful `clientArrival`), then `end`, then `clientDeparture`.  On an
admission error the handler writes the `500` rejection and returns; on a
rejected welcome it writes `500` with the driver's message; otherwise it
writes the `220` greeting and runs the command loop over `lines` until
the read fails. -/
def handleCommands (f : String → ClientHandler → ClientHandler)
    (srv : FtpSrv) (c : ClientHandler)
    (welcomeMsg : String) (welcomeOk : Bool) (lines : List String) :
    List Act × ClientHandler × FtpSrv :=
  let arr := clientArrival srv c
  match arr.2 with
  | some msg =>
    ((Act.write 500 ("Can't accept you - " ++ msg) :: endActs c)
        ++ [Act.departure c.id],
      c, clientDeparture arr.1 c)
  | none =>
    if welcomeOk then
      let r := runLoop f c lines
      ((Act.write 220 welcomeMsg :: (r.1 ++ Act.userLeft :: endActs r.2))
          ++ [Act.departure c.id],
        r.2, clientDeparture arr.1 c)
    else
      ((Act.write 500 welcomeMsg :: Act.userLeft :: endActs c)
          ++ [Act.departure c.id],
        c, clientDeparture arr.1 c)

/-! ## Shutdown drain (server.go `Stop`) -/

/-- Actions of `Stop`: one locked scan of the registry, the one-second
sleep between scans, and the final `Listener.Close()` — the only act that
stops the accept loop of `ListenAndServe` (which runs until `Accept`
fails, which happens once the listener is closed). -/
inductive SrvAct where
  | scan
  | sleep
  | closeListener
deriving DecidableEq, Repr

/-- `Stop`: repeatedly scan the registry under the lock and break once
every registered session reports `IsTransferClosed`, sleeping a fixed
second between scans, then close the listener.  The registry may change
between scans (sessions run concurrently), so the drain is modelled over
the sequence of registry snapshots the successive scans observe, each
snapshot listing `isTransferClosed` of the registered sessions; `none`
means the given snapshots never let the loop break. -/
def stopTrace : List (List Bool) → Option (List SrvAct)
  | [] => none
  | snap :: rest =>
    if snap.all (fun b => b) then
      some [SrvAct.scan, SrvAct.closeListener]
    else
      (stopTrace rest).map (fun tr => SrvAct.scan :: SrvAct.sleep :: tr)

/-- Whether, in a trace of `Stop`, the halt of connection acceptance (the
`Listener.Close()` act, the sole mechanism by which acceptance stops)
comes before any polling activity (any registry scan or sleep). -/
def acceptHaltBeforePolling (tr : List SrvAct) : Bool :=
  tr.contains SrvAct.closeListener
    && (tr.takeWhile (fun a => a != SrvAct.closeListener)).all
         (fun a => a != SrvAct.scan && a != SrvAct.sleep)

/-! ## Concrete instances used by closed theorems -/

/-- A settings value with max connections 1. -/
def settings1 : Settings :=
  { listenHost := "h", listenPort := 21, publicHost := "", maxConnections := 1 }

/-- A server already holding session 1 in its registry, at capacity. -/
def srvFull : FtpSrv :=
  { settings := settings1, connectionsById := {1}, clientCounter := 2 }

/-- A fresh unauthenticated session with id 2 and no transfer channel. -/
def ch2 : ClientHandler :=
  { id := 2, user := "", isAuthed := false, path := "/", command := "",
    param := "", ctxRnfr := "", ctxRest := 0, transfer := none,
    transferTls := false }

/-- A transfer channel whose `Open()` succeeds with stream handle 7. -/
def tOk : TransferHandler := { openResult := Except.ok 7 }

/-- A session holding the channel `tOk`. -/
def chT : ClientHandler := { ch2 with id := 3, transfer := some tOk }

/-- A server with empty registry and counter 0, under `settings1`. -/
def srv0 : FtpSrv :=
  { settings := settings1, connectionsById := ∅, clientCounter := 0 }

/-! ## Helper lemmas -/

theorem userLeft_not_mem_processLine (f : String → ClientHandler → ClientHandler)
    (c : ClientHandler) (line : String) :
    Act.userLeft ∉ (processLine f c line).1 := by
  simp only [processLine]
  split
  · simp
  · split <;> simp

theorem userLeft_not_mem_runLoop (f : String → ClientHandler → ClientHandler)
    (c : ClientHandler) (lines : List String) :
    Act.userLeft ∉ (runLoop f c lines).1 := by
  induction lines generalizing c with
  | nil => simp [runLoop]
  | cons line rest ih =>
    intro h
    rcases List.mem_append.mp h with h1 | h2
    · exact userLeft_not_mem_processLine f c line h1
    · exact ih _ h2

theorem userLeft_not_mem_endActs (c : ClientHandler) :
    Act.userLeft ∉ endActs c := by
  unfold endActs
  split <;> simp

theorem getLast?_append_singleton {α : Type} (l : List α) (a : α) :
    (l ++ [a]).getLast? = some a :=
  List.getLast?_concat l

theorem dropTrailing_cons_of_neg (p : Char → Bool) (c : Char) (rest : List Char)
    (h : p c = false) :
    dropTrailing p (c :: rest) = c :: dropTrailing p rest := by
  unfold dropTrailing
  rw [List.reverse_cons, List.dropWhile_append]
  split
  · rename_i he
    rw [List.isEmpty_iff] at he
    rw [he]
    simp [List.dropWhile_cons, h]
  · simp

theorem dropTrailing_dropLeading_comm (p : Char → Bool) (l : List Char) :
    dropTrailing p (dropLeading p l) = dropLeading p (dropTrailing p l) := by
  induction l with
  | nil => rfl
  | cons c rest ih =>
    by_cases hp : p c = true
    · have hA : dropLeading p (c :: rest) = dropLeading p rest := by
        rw [dropLeading, dropLeading, List.dropWhile_cons, if_pos hp]
      rw [hA, ih]
      rcases hd : rest.reverse.dropWhile p with _ | ⟨d, ds⟩
      · have h1 : dropTrailing p rest = [] := by
          rw [dropTrailing, hd]
          rfl
        have h2 : dropTrailing p (c :: rest) = [] := by
          rw [dropTrailing, List.reverse_cons, List.dropWhile_append, hd]
          simp [List.dropWhile_cons, hp]
        rw [h1, h2]
      · have h2 : dropTrailing p (c :: rest) = c :: dropTrailing p rest := by
          rw [dropTrailing, List.reverse_cons, List.dropWhile_append, hd]
          rw [dropTrailing, hd]
          simp
        rw [h2]
        have hB : dropLeading p (c :: dropTrailing p rest)
            = dropLeading p (dropTrailing p rest) := by
          rw [dropLeading, dropLeading, List.dropWhile_cons, if_pos hp]
        rw [hB]
    · have hp2 : p c = false := by simpa using hp
      have hA : dropLeading p (c :: rest) = c :: rest := by
        rw [dropLeading, List.dropWhile_cons, if_neg (by simp [hp2])]
      rw [hA, dropTrailing_cons_of_neg p c rest hp2]
      have hB : dropLeading p (c :: dropTrailing p rest)
          = c :: dropTrailing p rest := by
        rw [dropLeading, List.dropWhile_cons, if_neg (by simp [hp2])]
      rw [hB]

theorem splitFirst_eq_span (sep : Char) (l : List Char) :
    splitFirst sep l
      = (l.takeWhile (fun c => c != sep),
         match l.dropWhile (fun c => c != sep) with
         | [] => none
         | _ :: r => some r) := by
  induction l with
  | nil => rfl
  | cons c rest ih =>
    by_cases h : c = sep
    · subst h
      simp [splitFirst, List.takeWhile_cons, List.dropWhile_cons]
    · simp [splitFirst, h, List.takeWhile_cons, List.dropWhile_cons, ih]

theorem contains_crlf_eq : (fun c => crlf.contains c) = isCRLF := by
  funext c
  by_cases h1 : c = '\r'
  · subst h1
    decide
  · by_cases h2 : c = '\n'
    · subst h2
      decide
    · simp [crlf, isCRLF, h1, h2]

/-! ## Claim theorems -/

/-- C1: on a session whose authenticated-flag is false, a command line
whose upper-cased verb is neither `USER` nor `PASS` — known or unknown —
gets exactly the `530` "please login" response, no handler is dispatched
(the session changes only its stored verb and parameter), and the loop
continues with the remaining lines. -/
theorem unauthenticated_gate (f : String → ClientHandler → ClientHandler)
    (c : ClientHandler) (line : String) (rest : List String)
    (hAuth : c.isAuthed = false)
    (hU : goToUpper (parseLine line).1 ≠ "USER")
    (hP : goToUpper (parseLine line).1 ≠ "PASS") :
    processLine f c line
        = ([Act.write 530 "Please login with USER and PASS"],
           { c with command := goToUpper (parseLine line).1,
                    param := (parseLine line).2 })
      ∧ (∀ v, Act.dispatch v ∉ (processLine f c line).1)
      ∧ (runLoop f c (line :: rest)).1
          = Act.write 530 "Please login with USER and PASS"
              :: (runLoop f { c with command := goToUpper (parseLine line).1,
                                     param := (parseLine line).2 } rest).1 := by
  have hgate : processLine f c line
      = ([Act.write 530 "Please login with USER and PASS"],
         { c with command := goToUpper (parseLine line).1,
                  param := (parseLine line).2 }) := by
    simp [processLine, hAuth, hU, hP]
  refine ⟨hgate, ?_, ?_⟩
  · intro v
    rw [hgate]
    simp
  · show (runLoop f c (line :: rest)).1 = _
    rw [runLoop]
    rw [hgate]
    simp

/-- C1 witness: the gate theorem applied to the unauthenticated session
`ch2` receiving `LIST /tmp`. -/
theorem unauthenticated_gate_witness :
    ch2.isAuthed = false
      ∧ goToUpper (parseLine "LIST /tmp\r\n").1 ≠ "USER"
      ∧ goToUpper (parseLine "LIST /tmp\r\n").1 ≠ "PASS"
      ∧ processLine (fun _ c => c) ch2 "LIST /tmp\r\n"
          = ([Act.write 530 "Please login with USER and PASS"],
             { ch2 with command := goToUpper (parseLine "LIST /tmp\r\n").1,
                        param := (parseLine "LIST /tmp\r\n").2 }) :=
  ⟨rfl, by decide, by decide,
   (unauthenticated_gate (fun _ c => c) ch2 "LIST /tmp\r\n" [] rfl
     (by decide) (by decide)).1⟩

/-- C2: at the failing input (registry at capacity with session 1, limit 1,
arriving session 2), `clientArrival` registers the session and returns the
admission error without removing it, and `HandleCommands` then writes the
`500` rejection and returns — the trace holds no `conn.Close()` act, so
the rejected connection is never closed by the server, against the claim
(and the spec's "rejected connections are still closed by the acceptor"). -/
theorem admission_reject_no_close :
    (clientArrival srvFull ch2).2 = some "Too many clients 2 > 1"
      ∧ (clientArrival srvFull ch2).1.connectionsById = {1, 2}
      ∧ (handleCommands (fun _ c => c) srvFull ch2 "w" true []).1
          = [Act.write 500 "Can't accept you - Too many clients 2 > 1",
             Act.departure 2]
      ∧ Act.closeConn ∉ (handleCommands (fun _ c => c) srvFull ch2 "w" true []).1 :=
  ⟨by decide, by decide, by decide, by decide⟩

/-- C4 counterexample: on the received line `"\rA B\n"` (a legitimate
read: its only LF is final) the code's `parseLine` — which trims CR/LF
from *both* ends — yields verb `A`, argument `B`, while the claim's
parse, stripping only the trailing line terminator, yields verb `\rA`:
the claim's description of the split input is wrong for lines with
leading CR/LF characters. -/
theorem parseLine_trailing_strip_cex :
    parseLine "\rA B\n" = ("A", "B")
      ∧ parseLineClaimed "\rA B\n" = ("\rA", "B")
      ∧ parseLine "\rA B\n" ≠ parseLineClaimed "\rA B\n" :=
  ⟨by decide, by decide, by decide⟩

/-- C4 amended: for every received line, parsing strips the leading and
trailing CR and LF characters, splits at the first space into a verb (the
longest space-free prefix) and an argument — the remainder trimmed of
surrounding whitespace and not further tokenized (interior spaces kept
verbatim) — and a line with no space yields an empty argument: the code's
`parseLine` equals the definition `parseLineAmended` transcribed from
these words; moreover the verb is case-normalized to upper case before
gating and dispatch — the loop body either writes the `530` gate response,
dispatches exactly the upper-cased verb, or writes `550`. -/
theorem parseLine_amended_correct (line : String) :
    parseLine line = parseLineAmended line
      ∧ ∀ (f : String → ClientHandler → ClientHandler) (c : ClientHandler),
          (processLine f c line).1
              = [Act.write 530 "Please login with USER and PASS"]
            ∨ (processLine f c line).1
              = [Act.dispatch (goToUpper (parseLine line).1)]
            ∨ (processLine f c line).1 = [Act.write 550 "Not handled"] := by
  constructor
  · simp only [parseLine, parseLineAmended, goTrim]
    rw [contains_crlf_eq]
    rw [dropTrailing_dropLeading_comm]
    rw [splitFirst_eq_span]
    rcases hd : (dropLeading isCRLF (dropTrailing isCRLF line.toList)).dropWhile
        (fun c => c != ' ') with _ | ⟨x, argl⟩ <;>
      simp [hd]
  · intro f c
    simp only [processLine]
    split
    · exact Or.inl rfl
    · split
      · exact Or.inr (Or.inl rfl)
      · exact Or.inr (Or.inr rfl)

/-- C5: `TransferClose` writes the single `226` closing response and the
channel close exactly when a channel exists, always leaves the session
with its channel reference cleared (so `IsTransferClosed` holds
afterwards), does nothing when no channel exists, and a second call in a
row writes nothing and changes nothing. -/
theorem transferClose_idempotent (c : ClientHandler) :
    ((transferClose c).1
        = if isTransferClosed c then ([] : List Act)
          else [Act.write 226 "Closing transfer connection", Act.chanClose])
      ∧ (transferClose c).2 = { c with transfer := none }
      ∧ isTransferClosed (transferClose c).2 = true
      ∧ transferClose (transferClose c).2 = (([] : List Act), (transferClose c).2) := by
  rcases c with ⟨id, user, auth, path, cmd, prm, rnfr, rst, tr, tls⟩
  cases tr <;> simp [transferClose, isTransferClosed]

/-- C6: `TransferOpen` without a declared channel writes the `550`
client-error response and fails with the "no transfer channel declared"
error and no stream; with a channel it writes the intermediate `150`
response, then opens the channel, handing back the channel's outcome
(stream on success, the channel's error on failure) and leaving the
session — in particular its channel reference — unchanged. -/
theorem transferOpen_spec (c : ClientHandler) :
    (c.transfer = none →
      transferOpen c
        = ([Act.write 550 "No passive connection declared"],
           Except.error "No passive connection declared", c))
      ∧ (∀ t, c.transfer = some t →
          transferOpen c
            = ([Act.write 150 "Using transfer connection", Act.chanOpen],
               t.openResult, c)) := by
  constructor
  · intro h
    simp [transferOpen, h]
  · intro t h
    simp [transferOpen, h]

/-- C6 witness: the open theorem applied to a session without a channel
and to one holding the channel `tOk`. -/
theorem transferOpen_spec_witness :
    (ch2.transfer = none
      ∧ transferOpen ch2
          = ([Act.write 550 "No passive connection declared"],
             Except.error "No passive connection declared", ch2))
      ∧ (chT.transfer = some tOk
          ∧ transferOpen chT
              = ([Act.write 150 "Using transfer connection", Act.chanOpen],
                 tOk.openResult, chT)) :=
  ⟨⟨rfl, (transferOpen_spec ch2).1 rfl⟩,
   ⟨rfl, (transferOpen_spec chT).2 tOk rfl⟩⟩

/-- C7 counterexample: a session whose admission is rejected terminates
(its trace ends with the registry departure) without the driver's
`UserLeft` ever being invoked — the `UserLeft` defer is only registered
after the arrival check, so the claim's "on every termination path,
including admission rejection" fails. -/
theorem userLeft_skipped_on_admission_reject :
    Act.userLeft ∉ (handleCommands (fun _ c => c) srvFull ch2 "w" true ["QUIT\r\n"]).1
      ∧ (handleCommands (fun _ c => c) srvFull ch2 "w" true ["QUIT\r\n"]).1.getLast?
          = some (Act.departure 2) :=
  ⟨by decide, by decide⟩

/-- C7 amended: the driver's `UserLeft` hook is invoked on a session exit
exactly when the session's admission succeeded — so on every read-error,
quit or welcome-rejection exit, authenticated or not, but not on the
admission-rejection exit. -/
theorem userLeft_iff_admitted (f : String → ClientHandler → ClientHandler)
    (srv : FtpSrv) (c : ClientHandler)
    (wmsg : String) (wok : Bool) (lines : List String) :
    Act.userLeft ∈ (handleCommands f srv c wmsg wok lines).1
      ↔ (clientArrival srv c).2 = none := by
  rcases h : (clientArrival srv c).2 with _ | msg
  · cases wok
    · simp [handleCommands, h]
    · simp [handleCommands, h]
  · simp [handleCommands, h, userLeft_not_mem_endActs c]

/-- C8: `loadSettings` applies the defaults — listen host `0.0.0.0`, port
`2121`, max connections `10000` — exactly to the zero-valued
driver-supplied fields, keeps every non-zero value unchanged, and touches
nothing else. -/
theorem loadSettings_defaults (s : Settings) :
    (loadSettings s).listenHost
        = (if s.listenHost = "" then "0.0.0.0" else s.listenHost)
      ∧ (loadSettings s).listenPort
          = (if s.listenPort = 0 then 2121 else s.listenPort)
      ∧ (loadSettings s).maxConnections
          = (if s.maxConnections = 0 then 10000 else s.maxConnections)
      ∧ (loadSettings s).publicHost = s.publicHost := by
  rcases s with ⟨host, port, pub, maxc⟩
  by_cases h1 : host = "" <;> by_cases h2 : port = 0 <;> by_cases h3 : maxc = 0 <;>
    simp [loadSettings, h1, h2, h3]

/-- C3 counterexample: on a drain that has to wait (first registry scan
sees an open transfer channel, the second sees it closed), `Stop`'s trace
is scan, sleep, scan, listener close — the listener close, the one act
that makes the accept loop stop, does not precede the polling, refuting
the claim's "first stops accepting new connections, then blocks,
polling". -/
theorem stop_no_early_accept_halt :
    stopTrace [[false], [true]]
        = some [SrvAct.scan, SrvAct.sleep, SrvAct.scan, SrvAct.closeListener]
      ∧ acceptHaltBeforePolling
          [SrvAct.scan, SrvAct.sleep, SrvAct.scan, SrvAct.closeListener] = false :=
  ⟨by decide, by decide⟩

/-- C3 amended: `Stop` blocks, polling the registry at a fixed interval,
until a scan finds every registered session's `IsTransferClosed` true, and
only then closes the listener — its one listener close is the last act of
the trace (so acceptance of new connections stops only at that final
step), the drain ends only because some observed snapshot was all-closed,
and when the first snapshot is already all-closed (in particular when the
registry is empty) `Stop` returns promptly, without sleeping. -/
theorem stop_drain_then_close (snaps : List (List Bool)) (tr : List SrvAct)
    (h : stopTrace snaps = some tr) :
    tr.getLast? = some SrvAct.closeListener
      ∧ tr.count SrvAct.closeListener = 1
      ∧ (∃ snap ∈ snaps, snap.all (fun b => b) = true)
      ∧ ((snaps.headD []).all (fun b => b) = true →
          tr = [SrvAct.scan, SrvAct.closeListener]) := by
  induction snaps generalizing tr with
  | nil => simp [stopTrace] at h
  | cons snap rest ih =>
    by_cases hs : snap.all (fun b => b) = true
    · simp only [stopTrace, if_pos hs] at h
      have h2 := Option.some.inj h
      subst h2
      exact ⟨rfl, by decide, ⟨snap, List.mem_cons_self snap rest, hs⟩, fun _ => rfl⟩
    · simp only [stopTrace, if_neg hs] at h
      rcases ho : stopTrace rest with _ | tr0
      · rw [ho] at h
        simp at h
      · rw [ho] at h
        simp only [Option.map_some'] at h
        have h2 := Option.some.inj h
        subst h2
        obtain ⟨l1, l2, l3, _⟩ := ih tr0 ho
        refine ⟨?_, ?_, ?_, ?_⟩
        · rcases tr0 with _ | ⟨a, tr1⟩
          · simp at l1
          · rw [List.getLast?_cons_cons, List.getLast?_cons_cons]
            exact l1
        · simp [List.count_cons, l2]
        · rcases l3 with ⟨s, hmem, hall⟩
          exact ⟨s, List.mem_cons_of_mem _ hmem, hall⟩
        · intro hh
          exact absurd hh hs

/-- C3 witness: the drain theorem applied to a registry observed empty at
the first scan — `Stop` scans once and closes the listener, promptly. -/
theorem stop_drain_then_close_witness :
    stopTrace [[]] = some [SrvAct.scan, SrvAct.closeListener]
      ∧ ([SrvAct.scan, SrvAct.closeListener].getLast? = some SrvAct.closeListener
          ∧ [SrvAct.scan, SrvAct.closeListener].count SrvAct.closeListener = 1
          ∧ (∃ snap ∈ [([] : List Bool)], snap.all (fun b => b) = true)
          ∧ ((([([] : List Bool)]).headD []).all (fun b => b) = true →
              [SrvAct.scan, SrvAct.closeListener]
                = [SrvAct.scan, SrvAct.closeListener])) :=
  ⟨rfl, stop_drain_then_close [[]] [SrvAct.scan, SrvAct.closeListener] rfl⟩

theorem counterAfter_zero (k : Nat) : counterAfter 0 k = k % uint32Mod := by
  induction k with
  | zero => simp [counterAfter, uint32Mod]
  | succ k ih =>
    rw [counterAfter, ih, nextClientCounter]
    have hM : uint32Mod = 4294967296 := by decide
    rw [hM]
    omega

theorem serverAfterArrivals_counter (srv : FtpSrv) (k : Nat) :
    (serverAfterArrivals srv k).clientCounter = counterAfter srv.clientCounter k := by
  induction k with
  | zero => rfl
  | succ k ih =>
    rw [serverAfterArrivals, counterAfter, ← ih]
    rfl

theorem sessionIdAt_eq (srv : FtpSrv) (k : Nat) :
    sessionIdAt srv k = counterAfter srv.clientCounter (k + 1) := by
  rw [sessionIdAt, counterAfter, ← serverAfterArrivals_counter]
  rfl

/-- C9 counterexample: the session-id counter is a uint32, so ids are not
"never reused": starting from a fresh server, the first accepted session
and the `2 ^ 32 + 1`-st accepted session (the first after the counter
wraps) both get id 1. -/
theorem sessionId_reused_after_wrap :
    sessionIdAt srv0 0 = 1
      ∧ sessionIdAt srv0 uint32Mod = 1
      ∧ (0 : Nat) ≠ uint32Mod := by
  have h0 : srv0.clientCounter = 0 := rfl
  have hM : uint32Mod = 4294967296 := by decide
  refine ⟨?_, ?_, by decide⟩
  · rw [sessionIdAt_eq, h0, counterAfter_zero, hM]
  · rw [sessionIdAt_eq, h0, counterAfter_zero, hM]

/-- C9 amended: each accepted session's id is the previous counter value
plus one reduced modulo `2 ^ 32`, so ids are unique — and in particular
distinct live sessions have distinct ids and no id recurs — among any
`2 ^ 32` consecutively accepted sessions; an id is reused only after the
32-bit counter wraps. -/
theorem sessionIds_unique_window (m n : Nat) (h1 : m < n) (h2 : n < m + uint32Mod) :
    sessionIdAt srv0 m ≠ sessionIdAt srv0 n := by
  have h0 : srv0.clientCounter = 0 := rfl
  have hM : uint32Mod = 4294967296 := by decide
  rw [sessionIdAt_eq, sessionIdAt_eq, h0, counterAfter_zero, counterAfter_zero, hM]
  rw [hM] at h2
  intro he
  omega

/-- C9 witness: the uniqueness theorem applied to the first two accepted
sessions. -/
theorem sessionIds_unique_window_witness :
    0 < 1 ∧ 1 < 0 + uint32Mod ∧ sessionIdAt srv0 0 ≠ sessionIdAt srv0 1 :=
  ⟨by decide, by decide, sessionIds_unique_window 0 1 (by decide) (by decide)⟩

/-- C10: every exit path of `HandleCommands` — admission rejection
included, whose session the arrival check left registered — ends by
deleting the session from the registry: the final registry is the
registered one with the session erased, the session id is never in it,
and the departure is the last act of the trace. -/
theorem exit_paths_deregister (f : String → ClientHandler → ClientHandler)
    (srv : FtpSrv) (c : ClientHandler)
    (wmsg : String) (wok : Bool) (lines : List String) :
    (handleCommands f srv c wmsg wok lines).2.2.connectionsById
        = (insert c.id srv.connectionsById).erase c.id
      ∧ c.id ∉ (handleCommands f srv c wmsg wok lines).2.2.connectionsById
      ∧ (handleCommands f srv c wmsg wok lines).1.getLast?
          = some (Act.departure c.id) := by
  rcases h : (clientArrival srv c).2 with _ | msg
  · cases wok
    · simp only [handleCommands, h, Bool.false_eq_true, if_false]
      exact ⟨by simp [clientArrival, clientDeparture],
        by simp [clientArrival, clientDeparture],
        getLast?_append_singleton _ _⟩
    · simp only [handleCommands, h, if_true]
      exact ⟨by simp [clientArrival, clientDeparture],
        by simp [clientArrival, clientDeparture],
        getLast?_append_singleton _ _⟩
  · simp only [handleCommands, h]
    exact ⟨by simp [clientArrival, clientDeparture],
      by simp [clientArrival, clientDeparture],
      getLast?_append_singleton _ _⟩

end Ftp
